import Mathlib

/-!
Shallow embedding of the Chase Decision Engine of the credit-control
repository (`src/backend/src/services/chase-service.js`) and the
invoice routes built on it (`src/backend/src/routes/health.js`).

Modelling conventions:
* Timestamps are epoch milliseconds as `Int` (JS `Date.getTime()`).
* A JS `Date` value is `Option Int`: `some t` is a valid date, `none` is an
  Invalid Date (whose `getTime()` is NaN).
* The `due_date` column is embedded as the `parseDateOnly` result
  (`Option Int`, `none` when the column is null or unparseable); the string
  to timestamp conversion itself is an input-boundary concern that no
  decision depends on beyond this value.
* JS floats are modelled as exact rationals (`ℚ`); the only float
  arithmetic in the engine is the hour difference and the `0.01` jitter
  tolerance, both far from any representation boundary in the claims.
* The database is explicit state: the `invoices` table rows plus the
  `chase_emails` append-only log.  `maybeSendChase` receives the invoice
  *snapshot* separately from the current database, exactly as the JS code
  receives a previously-read row while its SQL statements act on the
  current table; this makes interleavings of concurrent evaluations
  directly expressible.
* The Stripe / OpenAI / Gmail collaborators are result oracles: their
  inputs (invoice facts, payment link) influence the engine's control flow
  only through success or thrown failure, which the oracle's `Except`
  value captures.  `executeQuery` writes are modelled as pure state
  updates.
-/

/-- One row of the `invoices` table (the chase-relevant columns).
Provider-facing columns that are only forwarded verbatim to the
collaborator oracles (`stripe_invoice_id`, `customer_name`, `amount`,
`currency`) are omitted. -/
structure Invoice where
  id : Int
  customer_email : String
  status : String
  /-- `parseDateOnly(invoice.due_date)`: epoch ms, `none` when null/unparseable. -/
  due_date : Option Int
  /-- `none` when the column is NULL (JS: not a number). -/
  overdue_days : Option Int
  /-- `none` when NULL (falsy); `some none` when set but not a valid date. -/
  last_chase_date : Option (Option Int)
  chase_count : Option Int
  chase_paused : Bool
  updated_at : Option Int
deriving DecidableEq

/-- One row of the `chase_emails` log. -/
structure ChaseEmailRow where
  invoice_id : Int
  overdue_day : Int
  generated_text : String
  subject_line : String
  sent_at : Int
  status : String
  sent_to : String
deriving DecidableEq

/-- The database state the chase service reads and writes. -/
structure DB where
  invoices : List Invoice
  chase_emails : List ChaseEmailRow
deriving DecidableEq

/-- `{subject, body}` produced by the content-generation collaborator. -/
structure EmailContent where
  subject : String
  body : String
deriving DecidableEq

instance instDecEqExcept {ε α : Type} [DecidableEq ε] [DecidableEq α] :
    DecidableEq (Except ε α) := fun a b =>
  match a, b with
  | Except.ok a, Except.ok b =>
      if h : a = b then Decidable.isTrue (congrArg Except.ok h)
      else Decidable.isFalse (fun hc => h (Except.ok.inj hc))
  | Except.error e, Except.error f =>
      if h : e = f then Decidable.isTrue (congrArg Except.error h)
      else Decidable.isFalse (fun hc => h (Except.error.inj hc))
  | Except.ok _, Except.error _ => Decidable.isFalse (fun hc => Except.noConfusion hc)
  | Except.error _, Except.ok _ => Decidable.isFalse (fun hc => Except.noConfusion hc)

/-- Result oracles for the three external collaborators invoked by
`maybeSendChase`: `stripeService.getPaymentLink`,
`aiEmailService.generateChaseEmail`, `gmailService.sendChaseEmail`.
`Except.error e` models the call throwing `e`. -/
structure Collaborators where
  getPaymentLink : Except String String
  generateChaseEmail : Except String EmailContent
  sendChaseEmail : Except String Unit
deriving DecidableEq

/-- The `options` argument of `maybeSendChase` (`{}` in the batch path,
`{bypassPaused: true, bypassInterval: true}` in the expedite route). -/
structure Options where
  bypassPaused : Bool := false
  bypassInterval : Bool := false
deriving DecidableEq

/-- The `app_config` key/value rows, as consulted through `configMap.get`. -/
abbrev ConfigMap := List (String × String)

/-- `configMap.get(key)`. -/
def configGet (m : ConfigMap) (k : String) : Option String :=
  (m.find? (fun p => p.1 == k)).map (fun p => p.2)

/-- JS `v || d` on an optional string: `undefined`/null and `""` are falsy. -/
def jsOrString (v : Option String) (d : String) : String :=
  match v with
  | none => d
  | some s => if s = "" then d else s

/-- JS `parseInt(s, 10)`: skip leading whitespace, optional sign, longest
digit prefix; `none` models NaN (no digit found). -/
def parseIntJS (s : String) : Option Int :=
  let cs := s.data.dropWhile (fun c => c.isWhitespace)
  let signAndRest : Int × List Char :=
    match cs with
    | '-' :: rest => (-1, rest)
    | '+' :: rest => (1, rest)
    | _ => (1, cs)
  let ds := signAndRest.2.takeWhile (fun c => c.isDigit)
  if ds.isEmpty then none
  else some (signAndRest.1 * (ds.foldl (fun a c => a * 10 + (c.toNat - 48)) 0 : Nat))

/-- `getIntervalHoursForOverdueDays` (chase-service.js:31):
minimum re-chase interval in hours for a given number of days overdue. -/
def getIntervalHoursForOverdueDays (daysOverdue : Int) : Option Int :=
  if daysOverdue ≥ 10 then some 24
  else if daysOverdue ≥ 7 then some 48
  else if daysOverdue ≥ 5 then some 72
  else none

/-- `diffHours` (chase-service.js:53): absolute difference of two
timestamps in hours. -/
def diffHours (a b : Int) : ℚ :=
  |(a : ℚ) - (b : ℚ)| / (1000 * 60 * 60)

/-- The `due_date` fallback branch of `computeDaysOverdue`:
`Math.floor((now - due)/msPerDay)` floored at 0, or 0 when the date does
not parse. -/
def computeDaysOverdueFromDue (now : Int) (inv : Invoice) : Int :=
  match inv.due_date with
  | none => 0
  | some due => max 0 (Int.fdiv (now - due) (24 * 60 * 60 * 1000))

/-- `computeDaysOverdue` (chase-service.js:69): prefer the DB's
`overdue_days` when it is a non-negative number, otherwise derive from
`due_date`. -/
def computeDaysOverdue (now : Int) (inv : Invoice) : Int :=
  match inv.overdue_days with
  | some d => if 0 ≤ d then d else computeDaysOverdueFromDue now inv
  | none => computeDaysOverdueFromDue now inv

/-- Gate: `(configMap.get('chase_enabled') || 'true') !== 'false'` negated. -/
def chaseDisabled (configMap : ConfigMap) : Bool :=
  jsOrString (configGet configMap "chase_enabled") "true" == "false"

/-- Gate: `!options.bypassPaused && invoice.chase_paused` (the JS compares
the column to `1`/`true`; the column is embedded as `Bool`). -/
def pausedBlocked (inv : Invoice) (options : Options) : Bool :=
  !options.bypassPaused && inv.chase_paused

/-- `parseInt(invoice.chase_count || 0, 10)`: NULL is falsy, numbers
round-trip through `parseInt` unchanged. -/
def currentCount (inv : Invoice) : Int :=
  inv.chase_count.getD 0

/-- Gate (chase-service.js:104): `!isNaN(maxChaseCount) && currentCount >= maxChaseCount`
with `maxChaseCount = parseInt(configMap.get('max_chase_count') || '4', 10)`.
A NaN parse result makes the gate `false` (the cap is skipped). -/
def capReached (configMap : ConfigMap) (inv : Invoice) : Bool :=
  match parseIntJS (jsOrString (configGet configMap "max_chase_count") "4") with
  | some m => decide (m ≤ currentCount inv)
  | none => false

/-- Gate (chase-service.js:112): minimum interval since the last chase,
skipped when `options.bypassInterval`, when `last_chase_date` is NULL, or
when it is not a valid date (`isNaN(last.getTime())`). -/
def intervalBlocked (now : Int) (requiredIntervalHours : Int) (inv : Invoice)
    (options : Options) : Bool :=
  if options.bypassInterval then false
  else
    match inv.last_chase_date with
    | none => false
    | some none => false
    | some (some last) =>
        decide (diffHours now last < (requiredIntervalHours : ℚ) - 1 / 100)

/-- The payment link actually used: the caller's link when truthy,
otherwise the Stripe fetch result, a fetch failure being caught and
logged (chase-service.js:124). -/
def effectivePaymentLink (paymentLink : Option String) (collab : Collaborators) :
    Option String :=
  match paymentLink with
  | some pl =>
      if pl = "" then
        match collab.getPaymentLink with
        | Except.ok l => some l
        | Except.error _ => none
      else some pl
  | none =>
      match collab.getPaymentLink with
      | Except.ok l => some l
      | Except.error _ => none

/-- The `INSERT INTO chase_emails ... 'sent' ...` statement
(chase-service.js:151). -/
def insertChaseEmail (db : DB) (row : ChaseEmailRow) : DB :=
  { db with chase_emails := db.chase_emails ++ [row] }

/-- The `UPDATE invoices SET ... WHERE id = $2` statement
(chase-service.js:157): `COALESCE(chase_count, 0) + 1` reads the row's
*current* value, not the evaluation's snapshot. -/
def updateInvoiceAfterSend (now daysOverdue id : Int) (db : DB) : DB :=
  { db with
    invoices := db.invoices.map (fun r =>
      if r.id = id then
        { r with
          last_chase_date := some (some now)
          chase_count := some (r.chase_count.getD 0 + 1)
          overdue_days := some daysOverdue
          status := "overdue"
          updated_at := some now }
      else r) }

/-- The commit step of a successful send: log row insert followed by the
invoice update. -/
def commitChase (now daysOverdue : Int) (inv : Invoice) (content : EmailContent)
    (db : DB) : DB :=
  updateInvoiceAfterSend now daysOverdue inv.id
    (insertChaseEmail db
      { invoice_id := inv.id
        overdue_day := daysOverdue
        generated_text := content.body
        subject_line := content.subject
        sent_at := now
        status := "sent"
        sent_to := inv.customer_email })

/-- The effectful tail of `maybeSendChase` (chase-service.js:123-167):
resolve the payment link, generate content, send, then commit.  A thrown
generation or delivery failure propagates with the database untouched. -/
def sendPhase (now daysOverdue : Int) (inv : Invoice) (paymentLink : Option String)
    (collab : Collaborators) (db : DB) : Except String Bool × DB :=
  let _pl := effectivePaymentLink paymentLink collab
  match collab.generateChaseEmail with
  | Except.error e => (Except.error e, db)
  | Except.ok emailContent =>
      match collab.sendChaseEmail with
      | Except.error e => (Except.error e, db)
      | Except.ok _ => (Except.ok true, commitChase now daysOverdue inv emailContent db)

/-- `maybeSendChase` (chase-service.js:82-168).  The invoice argument is
the snapshot read by the caller; the `DB` argument is the table state the
SQL statements act on.  `Except.error` models the function throwing, with
the database state at the throw point. -/
def maybeSendChase (now : Int) (inv : Invoice) (configMap : ConfigMap)
    (paymentLink : Option String) (options : Options) (collab : Collaborators)
    (db : DB) : Except String Bool × DB :=
  let daysOverdue := computeDaysOverdue now inv
  match getIntervalHoursForOverdueDays daysOverdue with
  | none => (Except.ok false, db)
  | some requiredIntervalHours =>
      if chaseDisabled configMap then (Except.ok false, db)
      else if pausedBlocked inv options then (Except.ok false, db)
      else if capReached configMap inv then (Except.ok false, db)
      else if intervalBlocked now requiredIntervalHours inv options then
        (Except.ok false, db)
      else sendPhase now daysOverdue inv paymentLink collab db

/-- `selectCandidateInvoices` (chase-service.js:57): the rows with
`status IN ('unpaid', 'overdue') AND due_date < CURRENT_DATE` (a NULL
`due_date` fails the SQL comparison). -/
def selectCandidateInvoices (today : Int) (db : DB) : List Invoice :=
  db.invoices.filter (fun inv =>
    (inv.status == "unpaid" || inv.status == "overdue") &&
      match inv.due_date with
      | some d => decide (d < today)
      | none => false)

/-- The loop body of `processOverdueChasing` (chase-service.js:175): each
invoice is evaluated inside a try/catch, so a thrown evaluation is logged
and the loop continues with the next invoice. -/
def processInvoices (now : Int) (configMap : ConfigMap)
    (collabOf : Invoice → Collaborators) :
    List Invoice → Nat → DB → Nat × DB
  | [], sentCount, db => (sentCount, db)
  | inv :: rest, sentCount, db =>
      match maybeSendChase now inv configMap none {} (collabOf inv) db with
      | (Except.ok true, db2) => processInvoices now configMap collabOf rest (sentCount + 1) db2
      | (Except.ok false, db2) => processInvoices now configMap collabOf rest sentCount db2
      | (Except.error _, db2) => processInvoices now configMap collabOf rest sentCount db2

/-- `processOverdueChasing` (chase-service.js:170): read the config, select
the candidates, evaluate each with default options, and return
`{sent, totalCandidates}` together with the final table state. -/
def processOverdueChasing (now today : Int) (configMap : ConfigMap)
    (collabOf : Invoice → Collaborators) (db : DB) : (Nat × Nat) × DB :=
  let invoices := selectCandidateInvoices today db
  let r := processInvoices now configMap collabOf invoices 0 db
  ((r.1, invoices.length), r.2)

/-- `Math.ceil(a / b)` for integer `a` and positive integer `b`. -/
def ceilDiv (a b : Int) : Int :=
  -(Int.fdiv (-a) b)

/-- `computeNextChaseInfo` (health.js:129): the dashboard's projection of
the interval policy, `(next_chase_date, days_until_next_chase)`.  It reads
`invoice.overdue_days` directly (`Number.isFinite(...) ? ... : 0`) and
re-states the tier table inline.  A set-but-invalid `last_chase_date`
makes `nextDate.getTime()` NaN, so `toISOString()` throws a RangeError,
modelled as `Except.error`. -/
def computeNextChaseInfo (now : Int) (inv : Invoice) :
    Except String (Option Int × Option Int) :=
  let daysOverdue : Int :=
    match inv.overdue_days with
    | some d => d
    | none => 0
  let hoursInterval : Option Int :=
    if daysOverdue ≥ 10 then some 24
    else if daysOverdue ≥ 7 then some 48
    else if daysOverdue ≥ 5 then some 72
    else none
  match hoursInterval with
  | none => Except.ok (none, none)
  | some h =>
      match inv.last_chase_date with
      | some none => Except.error "RangeError: Invalid time value"
      | some (some last) =>
          let nextDate := last + h * (60 * 60 * 1000)
          Except.ok (some nextDate, some (max 0 (ceilDiv (nextDate - now) (24 * 60 * 60 * 1000))))
      | none =>
          Except.ok (some now, some (max 0 (ceilDiv (now - now) (24 * 60 * 60 * 1000))))

/-- The next-chase date as the spec's words describe it (the comparison
side of the refinement claim about `computeNextChaseInfo`): the tier
interval is `getIntervalHoursForOverdueDays` applied to the invoice's
`daysOverdue` as the Decision Engine computes it, and the next chase date
is `last_chase_at` plus that interval, or `now` when never chased, or
null when below the threshold. -/
def specNextChaseDate (now : Int) (inv : Invoice) : Option Int :=
  match getIntervalHoursForOverdueDays (computeDaysOverdue now inv) with
  | none => none
  | some h =>
      match inv.last_chase_date with
      | some (some last) => some (last + h * (60 * 60 * 1000))
      | _ => some now

/-- The expedite route's options (health.js:247):
`{ bypassPaused: true, bypassInterval: true }`. -/
def expediteOptions : Options :=
  { bypassPaused := true, bypassInterval := true }

/-- The inputs of one call to `maybeSendChase`, bundled so that sequences
of evaluations (each with its own snapshot, clock and collaborators) can
be run against one database. -/
structure EvalInput where
  now : Int
  inv : Invoice
  configMap : ConfigMap
  paymentLink : Option String
  options : Options
  collab : Collaborators

/-- One evaluation of `EvalInput` against the database. -/
def evalStep (s : EvalInput) (db : DB) : Except String Bool × DB :=
  maybeSendChase s.now s.inv s.configMap s.paymentLink s.options s.collab db

/-- Run a sequence of evaluations, threading the database. -/
def runEvaluations (steps : List EvalInput) (db : DB) : DB :=
  steps.foldl (fun db s => (evalStep s db).2) db

/-- The `chase_count` column of every row (NULL read as 0, as the engine
and the SQL `COALESCE` do). -/
def chaseCounts (db : DB) : List Int :=
  db.invoices.map (fun r => r.chase_count.getD 0)

/-- The number of `chase_emails` rows with status `sent`. -/
def countSent (db : DB) : Nat :=
  (db.chase_emails.filter (fun r => r.status == "sent")).length

/-- The outcome (`ok true` = sent, `ok false` = not eligible,
`error` = thrown) of `maybeSendChase`, which depends only on the snapshot,
configuration, options and collaborators — never on the database state. -/
def chaseOutcome (now : Int) (inv : Invoice) (configMap : ConfigMap)
    (options : Options) (collab : Collaborators) : Except String Bool :=
  match getIntervalHoursForOverdueDays (computeDaysOverdue now inv) with
  | none => Except.ok false
  | some requiredIntervalHours =>
      if chaseDisabled configMap then Except.ok false
      else if pausedBlocked inv options then Except.ok false
      else if capReached configMap inv then Except.ok false
      else if intervalBlocked now requiredIntervalHours inv options then Except.ok false
      else
        match collab.generateChaseEmail with
        | Except.error e => Except.error e
        | Except.ok _ =>
            match collab.sendChaseEmail with
            | Except.error e => Except.error e
            | Except.ok _ => Except.ok true

/-- The content the commit records when generation succeeded. -/
def theContent (collab : Collaborators) : EmailContent :=
  match collab.generateChaseEmail with
  | Except.ok c => c
  | Except.error _ => { subject := "", body := "" }

lemma maybeSendChase_eq (now : Int) (inv : Invoice) (configMap : ConfigMap)
    (paymentLink : Option String) (options : Options) (collab : Collaborators)
    (db : DB) :
    maybeSendChase now inv configMap paymentLink options collab db =
      (chaseOutcome now inv configMap options collab,
        if chaseOutcome now inv configMap options collab = Except.ok true then
          commitChase now (computeDaysOverdue now inv) inv (theContent collab) db
        else db) := by
  unfold maybeSendChase chaseOutcome sendPhase theContent
  cases hI : getIntervalHoursForOverdueDays (computeDaysOverdue now inv) with
  | none => simp [hI]
  | some req =>
      cases hd : chaseDisabled configMap with
      | true => simp [hI, hd]
      | false =>
          cases hp : pausedBlocked inv options with
          | true => simp [hI, hd, hp]
          | false =>
              cases hc : capReached configMap inv with
              | true => simp [hI, hd, hp, hc]
              | false =>
                  cases hb : intervalBlocked now req inv options with
                  | true => simp [hI, hd, hp, hc, hb]
                  | false =>
                      cases hg : collab.generateChaseEmail with
                      | error e => simp [hI, hd, hp, hc, hb, hg]
                      | ok c =>
                          cases hs : collab.sendChaseEmail with
                          | error e => simp [hI, hd, hp, hc, hb, hg, hs]
                          | ok u => simp [hI, hd, hp, hc, hb, hg, hs]

lemma maybeSendChase_fst (now : Int) (inv : Invoice) (configMap : ConfigMap)
    (paymentLink : Option String) (options : Options) (collab : Collaborators)
    (db : DB) :
    (maybeSendChase now inv configMap paymentLink options collab db).1 =
      chaseOutcome now inv configMap options collab := by
  rw [maybeSendChase_eq]

lemma maybeSendChase_snd (now : Int) (inv : Invoice) (configMap : ConfigMap)
    (paymentLink : Option String) (options : Options) (collab : Collaborators)
    (db : DB) :
    (maybeSendChase now inv configMap paymentLink options collab db).2 =
      (if chaseOutcome now inv configMap options collab = Except.ok true then
        commitChase now (computeDaysOverdue now inv) inv (theContent collab) db
      else db) := by
  rw [maybeSendChase_eq]

lemma maybeSendChase_not_sent (now : Int) (inv : Invoice) (configMap : ConfigMap)
    (paymentLink : Option String) (options : Options) (collab : Collaborators)
    (db : DB)
    (h : chaseOutcome now inv configMap options collab ≠ Except.ok true) :
    maybeSendChase now inv configMap paymentLink options collab db =
      (chaseOutcome now inv configMap options collab, db) := by
  rw [maybeSendChase_eq, if_neg h]

lemma chaseOutcome_of_below_threshold (now : Int) (inv : Invoice)
    (configMap : ConfigMap) (options : Options) (collab : Collaborators)
    (h : getIntervalHoursForOverdueDays (computeDaysOverdue now inv) = none) :
    chaseOutcome now inv configMap options collab = Except.ok false := by
  unfold chaseOutcome
  rw [h]

lemma chaseOutcome_of_cap (now : Int) (inv : Invoice) (configMap : ConfigMap)
    (options : Options) (collab : Collaborators)
    (h : capReached configMap inv = true) :
    chaseOutcome now inv configMap options collab = Except.ok false := by
  unfold chaseOutcome
  cases hI : getIntervalHoursForOverdueDays (computeDaysOverdue now inv) with
  | none => simp [hI]
  | some req =>
      cases hd : chaseDisabled configMap with
      | true => simp [hI, hd]
      | false =>
          cases hp : pausedBlocked inv options with
          | true => simp [hI, hd, hp]
          | false => simp [hI, hd, hp, h]

lemma chaseOutcome_of_interval (now : Int) (inv : Invoice) (configMap : ConfigMap)
    (options : Options) (collab : Collaborators)
    (h : ∀ req, getIntervalHoursForOverdueDays (computeDaysOverdue now inv) = some req →
      intervalBlocked now req inv options = true) :
    chaseOutcome now inv configMap options collab = Except.ok false := by
  unfold chaseOutcome
  cases hI : getIntervalHoursForOverdueDays (computeDaysOverdue now inv) with
  | none => simp [hI]
  | some req =>
      cases hd : chaseDisabled configMap with
      | true => simp [hI, hd]
      | false =>
          cases hp : pausedBlocked inv options with
          | true => simp [hI, hd, hp]
          | false =>
              cases hc : capReached configMap inv with
              | true => simp [hI, hd, hp, hc]
              | false => simp [hI, hd, hp, hc, h req hI]

lemma chaseOutcome_of_collab_failure (now : Int) (inv : Invoice)
    (configMap : ConfigMap) (options : Options) (collab : Collaborators)
    (h : (∃ e, collab.generateChaseEmail = Except.error e) ∨
      (∃ e, collab.sendChaseEmail = Except.error e)) :
    chaseOutcome now inv configMap options collab ≠ Except.ok true := by
  unfold chaseOutcome
  cases hI : getIntervalHoursForOverdueDays (computeDaysOverdue now inv) with
  | none => simp [hI]
  | some req =>
      cases hd : chaseDisabled configMap with
      | true => simp [hI, hd]
      | false =>
          cases hp : pausedBlocked inv options with
          | true => simp [hI, hd, hp]
          | false =>
              cases hc : capReached configMap inv with
              | true => simp [hI, hd, hp, hc]
              | false =>
                  cases hb : intervalBlocked now req inv options with
                  | true => simp [hI, hd, hp, hc, hb]
                  | false =>
                      cases hg : collab.generateChaseEmail with
                      | error e => simp [hI, hd, hp, hc, hb, hg]
                      | ok c =>
                          cases hs : collab.sendChaseEmail with
                          | error e => simp [hI, hd, hp, hc, hb, hg, hs]
                          | ok u =>
                              rcases h with ⟨e, he⟩ | ⟨e, he⟩
                              · rw [hg] at he
                                exact absurd he (by simp)
                              · rw [hs] at he
                                exact absurd he (by simp)

lemma invoices_commit (now d : Int) (inv : Invoice) (c : EmailContent) (db : DB) :
    (commitChase now d inv c db).invoices =
      db.invoices.map (fun r =>
        if r.id = inv.id then
          { r with
            last_chase_date := some (some now)
            chase_count := some (r.chase_count.getD 0 + 1)
            overdue_days := some d
            status := "overdue"
            updated_at := some now }
        else r) := rfl

lemma chase_emails_commit (now d : Int) (inv : Invoice) (c : EmailContent) (db : DB) :
    (commitChase now d inv c db).chase_emails =
      db.chase_emails ++
        [{ invoice_id := inv.id
           overdue_day := d
           generated_text := c.body
           subject_line := c.subject
           sent_at := now
           status := "sent"
           sent_to := inv.customer_email }] := rfl

lemma chaseCounts_commit (now d : Int) (inv : Invoice) (c : EmailContent) (db : DB) :
    chaseCounts (commitChase now d inv c db) =
      db.invoices.map (fun r =>
        if r.id = inv.id then r.chase_count.getD 0 + 1 else r.chase_count.getD 0) := by
  unfold chaseCounts
  rw [invoices_commit, List.map_map]
  congr 1
  funext r
  by_cases h : r.id = inv.id <;> simp [h]

lemma countSent_commit (now d : Int) (inv : Invoice) (c : EmailContent) (db : DB) :
    countSent (commitChase now d inv c db) = countSent db + 1 := by
  unfold countSent
  rw [chase_emails_commit, List.filter_append]
  simp

lemma forall2_le_refl (l : List Int) : List.Forall₂ (· ≤ ·) l l := by
  induction l with
  | nil => exact List.Forall₂.nil
  | cons a t ih => exact List.Forall₂.cons le_rfl ih

lemma forall2_le_trans {a b c : List Int}
    (h1 : List.Forall₂ (· ≤ ·) a b) (h2 : List.Forall₂ (· ≤ ·) b c) :
    List.Forall₂ (· ≤ ·) a c := by
  induction h1 generalizing c with
  | nil => cases h2; exact List.Forall₂.nil
  | cons hab t ih =>
      cases h2 with
      | cons hbc t2 => exact List.Forall₂.cons (le_trans hab hbc) (ih t2)

lemma forall2_le_map {α : Type} (l : List α) (f g : α → Int) (h : ∀ a, f a ≤ g a) :
    List.Forall₂ (· ≤ ·) (l.map f) (l.map g) := by
  induction l with
  | nil => exact List.Forall₂.nil
  | cons a t ih => exact List.Forall₂.cons (h a) ih

lemma chaseCounts_step_le (s : EvalInput) (db : DB) :
    List.Forall₂ (· ≤ ·) (chaseCounts db) (chaseCounts (evalStep s db).2) := by
  unfold evalStep
  rw [maybeSendChase_snd]
  split
  · rw [chaseCounts_commit]
    unfold chaseCounts
    apply forall2_le_map
    intro r
    by_cases h : r.id = s.inv.id <;> simp [h]
  · exact forall2_le_refl _

lemma chaseCounts_run_le (steps : List EvalInput) (db : DB) :
    List.Forall₂ (· ≤ ·) (chaseCounts db) (chaseCounts (runEvaluations steps db)) := by
  induction steps generalizing db with
  | nil => exact forall2_le_refl _
  | cons s rest ih =>
      have hstep := chaseCounts_step_le s db
      have hrest := ih ((evalStep s db).2)
      have hrun : runEvaluations (s :: rest) db = runEvaluations rest ((evalStep s db).2) := rfl
      rw [hrun]
      exact forall2_le_trans hstep hrest

lemma processInvoices_error_skip (now : Int) (configMap : ConfigMap)
    (collabOf : Invoice → Collaborators) (bad : Invoice) (rest : List Invoice)
    (acc : Nat) (db : DB) (e : String)
    (h : chaseOutcome now bad configMap {} (collabOf bad) = Except.error e) :
    processInvoices now configMap collabOf (bad :: rest) acc db =
      processInvoices now configMap collabOf rest acc db := by
  have hne : chaseOutcome now bad configMap {} (collabOf bad) ≠ Except.ok true := by
    rw [h]; simp
  have hm : maybeSendChase now bad configMap none {} (collabOf bad) db =
      (Except.error e, db) := by
    rw [maybeSendChase_not_sent now bad configMap none {} (collabOf bad) db hne, h]
  simp only [processInvoices, hm]

lemma interval_none_of_lt_five (d : Int) (h : d < 5) :
    getIntervalHoursForOverdueDays d = none := by
  unfold getIntervalHoursForOverdueDays
  rw [if_neg (by omega), if_neg (by omega), if_neg (by omega)]

/-- A fully eligible invoice snapshot used by the concrete scenarios:
10 days overdue, never chased, not paused. -/
def baseInvoice : Invoice :=
  { id := 1
    customer_email := "customer@example.com"
    status := "overdue"
    due_date := none
    overdue_days := some 10
    last_chase_date := none
    chase_count := some 0
    chase_paused := false
    updated_at := none }

/-- Collaborators that all succeed. -/
def collabOk : Collaborators :=
  { getPaymentLink := Except.ok "https://pay.example.com/link"
    generateChaseEmail := Except.ok { subject := "Overdue invoice", body := "Please pay." }
    sendChaseEmail := Except.ok () }

/-- Collaborators whose delivery step throws. -/
def collabSendFail : Collaborators :=
  { collabOk with sendChaseEmail := Except.error "smtp down" }

/-- Collaborators whose content-generation step throws. -/
def collabGenFail : Collaborators :=
  { collabOk with generateChaseEmail := Except.error "model unavailable" }

/-- A one-invoice table matching `baseInvoice`. -/
def baseDB : DB :=
  { invoices := [baseInvoice], chase_emails := [] }

/-- C3: for every invoice whose `chase_count` is at least the configured
`maxChaseCount` (whenever that configuration value parses to a number),
`maybeSendChase` returns false with the database unchanged, for every
options value — in particular for the expedite options; no options value
bypasses the cap check. -/
theorem c3_cap_never_bypassed (now : Int) (inv : Invoice) (configMap : ConfigMap)
    (paymentLink : Option String) (options : Options) (collab : Collaborators)
    (db : DB) (m : Int)
    (hparse : parseIntJS (jsOrString (configGet configMap "max_chase_count") "4") = some m)
    (hcap : m ≤ currentCount inv) :
    maybeSendChase now inv configMap paymentLink options collab db =
      (Except.ok false, db) := by
  have hcapb : capReached configMap inv = true := by
    unfold capReached
    rw [hparse]
    simpa using hcap
  have hout := chaseOutcome_of_cap now inv configMap options collab hcapb
  rw [maybeSendChase_not_sent now inv configMap paymentLink options collab db
    (by rw [hout]; simp), hout]

/-- Witness for C3: a capped invoice (`chase_count = 4`, configured max 4)
is refused even by an expedite evaluation with both bypass flags set. -/
theorem c3_cap_never_bypassed_witness :
    maybeSendChase 0 { baseInvoice with chase_count := some 4 }
        [("max_chase_count", "4")] none expediteOptions collabOk baseDB =
      (Except.ok false, baseDB) :=
  c3_cap_never_bypassed 0 { baseInvoice with chase_count := some 4 }
    [("max_chase_count", "4")] none expediteOptions collabOk baseDB 4
    (by decide) (by decide)

/-- C7: an invoice whose computed `daysOverdue` is below 5 (so the interval
policy returns null) is never chased: `maybeSendChase` returns false and
the invoice table and `chase_emails` log are returned unchanged. -/
theorem c7_below_threshold_no_send (now : Int) (inv : Invoice) (configMap : ConfigMap)
    (paymentLink : Option String) (options : Options) (collab : Collaborators)
    (db : DB) (h : computeDaysOverdue now inv < 5) :
    maybeSendChase now inv configMap paymentLink options collab db =
      (Except.ok false, db) := by
  have hout := chaseOutcome_of_below_threshold now inv configMap options collab
    (interval_none_of_lt_five (computeDaysOverdue now inv) h)
  rw [maybeSendChase_not_sent now inv configMap paymentLink options collab db
    (by rw [hout]; simp), hout]

/-- Witness for C7: a 3-days-overdue invoice is left untouched. -/
theorem c7_below_threshold_no_send_witness :
    maybeSendChase 0 { baseInvoice with overdue_days := some 3 } [] none {} collabOk baseDB =
      (Except.ok false, baseDB) :=
  c7_below_threshold_no_send 0 { baseInvoice with overdue_days := some 3 } [] none {}
    collabOk baseDB (by decide)

/-- C10: a `max_chase_count` configuration value whose `parseInt` result is
NaN (here the string `unlimited`) makes `maybeSendChase` skip the cap check
entirely: an invoice already chased 1000000 times is still sent a chase
when every other gate passes. -/
theorem c10_unparseable_cap_skipped :
    parseIntJS "unlimited" = none ∧
    ({ baseInvoice with chase_count := some 1000000 } : Invoice).chase_count = some 1000000 ∧
    (maybeSendChase 0 { baseInvoice with chase_count := some 1000000 }
        [("max_chase_count", "unlimited")] none {} collabOk baseDB).1 = Except.ok true := by
  refine ⟨by decide, rfl, by decide⟩

/-- The 8-days-overdue, last-chased-50-hours-ago invoice of the interval
gating scenario. -/
def invFiftyHours : Invoice :=
  { baseInvoice with overdue_days := some 8, last_chase_date := some (some 0) }

lemma diffHours_30h : diffHours (30 * (60 * 60 * 1000)) 0 = 30 := by
  unfold diffHours
  rw [abs_of_nonneg (by norm_num)]
  norm_num

lemma diffHours_50h : diffHours (50 * (60 * 60 * 1000)) 0 = 50 := by
  unfold diffHours
  rw [abs_of_nonneg (by norm_num)]
  norm_num

lemma intervalBlocked_50h :
    intervalBlocked (50 * (60 * 60 * 1000)) 48 invFiftyHours {} = false := by
  unfold intervalBlocked
  simp only [invFiftyHours, baseInvoice, Bool.false_eq_true, if_false]
  rw [decide_eq_false_iff_not, diffHours_50h]
  norm_num

/-- C5: whenever `last_chase_at` is a non-null valid timestamp,
`bypassInterval` is false, and the hours elapsed are below the required
tier interval minus the 0.01h jitter tolerance, `maybeSendChase` returns
false with no state change; and in the concrete scenario with
`daysOverdue = 8` (required interval 48h) a last chase 50 hours ago is
eligible and sends. -/
theorem c5_interval_gating :
    (∀ (now : Int) (inv : Invoice) (configMap : ConfigMap)
      (paymentLink : Option String) (options : Options) (collab : Collaborators)
      (db : DB) (t req : Int),
      options.bypassInterval = false →
      inv.last_chase_date = some (some t) →
      getIntervalHoursForOverdueDays (computeDaysOverdue now inv) = some req →
      diffHours now t < (req : ℚ) - 1 / 100 →
      maybeSendChase now inv configMap paymentLink options collab db =
        (Except.ok false, db)) ∧
    (maybeSendChase (50 * (60 * 60 * 1000)) invFiftyHours [] none {} collabOk baseDB).1 =
      Except.ok true := by
  constructor
  · intro now inv configMap paymentLink options collab db t req hbyp hlast hreq hlt
    have hb : ∀ r, getIntervalHoursForOverdueDays (computeDaysOverdue now inv) = some r →
        intervalBlocked now r inv options = true := by
      intro r hr
      rw [hreq] at hr
      obtain rfl : req = r := Option.some.inj hr
      unfold intervalBlocked
      simp only [hbyp, Bool.false_eq_true, if_false, hlast]
      exact decide_eq_true hlt
    have hout := chaseOutcome_of_interval now inv configMap options collab hb
    rw [maybeSendChase_not_sent now inv configMap paymentLink options collab db
      (by rw [hout]; simp), hout]
  · rw [maybeSendChase_fst]
    unfold chaseOutcome
    simp only [show getIntervalHoursForOverdueDays
        (computeDaysOverdue (50 * (60 * 60 * 1000)) invFiftyHours) = some 48 from by decide,
      show chaseDisabled ([] : ConfigMap) = false from by decide,
      show pausedBlocked invFiftyHours {} = false from by decide,
      show capReached ([] : ConfigMap) invFiftyHours = false from by decide,
      intervalBlocked_50h]
    simp [collabOk]

/-- Witness for C5: with `daysOverdue = 8` (interval 48h) and the last
chase 30 hours ago, the invoice is not chased and nothing changes. -/
theorem c5_interval_gating_witness :
    maybeSendChase (30 * (60 * 60 * 1000))
        { baseInvoice with overdue_days := some 8, last_chase_date := some (some 0) }
        [] none {} collabOk baseDB =
      (Except.ok false, baseDB) :=
  c5_interval_gating.1 (30 * (60 * 60 * 1000))
    { baseInvoice with overdue_days := some 8, last_chase_date := some (some 0) }
    [] none {} collabOk baseDB 0 48 rfl rfl (by decide)
    (by rw [diffHours_30h]; norm_num)

/-- A paid invoice that is otherwise fully eligible, and its table. -/
def invPaid : Invoice :=
  { baseInvoice with status := "paid" }

/-- The table holding `invPaid`. -/
def dbPaid : DB :=
  { invoices := [invPaid], chase_emails := [] }

/-- Counterexample to C1 as stated: `maybeSendChase` performs no status
check, so an invoice with status `paid` evaluated through the expedite
endpoint's options is sent a chase (returns true) when the other gates
pass. -/
theorem c1_terminal_status_counterexample :
    invPaid.status = "paid" ∧
    (maybeSendChase 0 invPaid [] none expediteOptions collabOk dbPaid).1 =
      Except.ok true ∧
    countSent (maybeSendChase 0 invPaid [] none expediteOptions collabOk dbPaid).2 = 1 := by
  refine ⟨rfl, by decide, by decide⟩

/-- C1 amended: the terminal-status guarantee holds only for the batch
path — `selectCandidateInvoices` never returns an invoice whose status is
`paid` or `cancelled`, so the batch run never evaluates one; the expedite
path has no such guard (see the counterexample). -/
theorem c1_terminal_status_amended (today : Int) (db : DB) (inv : Invoice)
    (h : inv.status = "paid" ∨ inv.status = "cancelled") :
    inv ∉ selectCandidateInvoices today db := by
  unfold selectCandidateInvoices
  intro hmem
  rw [List.mem_filter] at hmem
  rcases hmem with ⟨-, hcond⟩
  rcases h with h | h <;> simp [h] at hcond

/-- Witness for the amended C1: the paid invoice is not among the batch
candidates of its own table. -/
theorem c1_terminal_status_amended_witness :
    invPaid ∉ selectCandidateInvoices 0 dbPaid :=
  c1_terminal_status_amended 0 dbPaid invPaid (Or.inl rfl)

/-- Counterexample to C4 as stated: when delivery throws, no ChaseRecord
of any status is recorded — in particular no `failed` record: the call
returns the error with the database identical to the input, and the log
(which started empty) stays empty. -/
theorem c4_delivery_failure_counterexample :
    maybeSendChase 0 baseInvoice [] none {} collabSendFail baseDB =
      (Except.error "smtp down", baseDB) ∧
    ((maybeSendChase 0 baseInvoice [] none {} collabSendFail baseDB).2).chase_emails = [] := by
  refine ⟨by decide, by decide⟩

/-- C4 amended: when content generation or delivery fails, the database
(invoice row and chase log) is returned completely unchanged, the
evaluation never reports a send, and the batch loop catches the error and
continues with the remaining invoices unchanged in accumulator and state. -/
theorem c4_delivery_failure_amended (now : Int) (inv : Invoice) (configMap : ConfigMap)
    (paymentLink : Option String) (options : Options) (collab : Collaborators) (db : DB)
    (h : (∃ e, collab.generateChaseEmail = Except.error e) ∨
      (∃ e, collab.sendChaseEmail = Except.error e)) :
    (maybeSendChase now inv configMap paymentLink options collab db).2 = db ∧
    (maybeSendChase now inv configMap paymentLink options collab db).1 ≠ Except.ok true ∧
    (∀ (rest : List Invoice) (acc : Nat),
      processInvoices now configMap (fun _ => collab) (inv :: rest) acc db =
        processInvoices now configMap (fun _ => collab) rest acc db) := by
  have hne := chaseOutcome_of_collab_failure now inv configMap options collab h
  refine ⟨?_, ?_, ?_⟩
  · rw [maybeSendChase_snd, if_neg hne]
  · rw [maybeSendChase_fst]
    exact hne
  · intro rest acc
    have hne0 := chaseOutcome_of_collab_failure now inv configMap {} collab h
    have hm := maybeSendChase_not_sent now inv configMap none {} collab db hne0
    cases ho : chaseOutcome now inv configMap {} collab with
    | ok b =>
        cases b with
        | true => exact absurd ho hne0
        | false =>
            rw [ho] at hm
            simp only [processInvoices, hm]
    | error e =>
        rw [ho] at hm
        simp only [processInvoices, hm]

/-- Witness for the amended C4: the failing delivery leaves the concrete
table untouched, reports no send, and the batch continues. -/
theorem c4_delivery_failure_amended_witness :
    (maybeSendChase 0 baseInvoice [] none {} collabSendFail baseDB).2 = baseDB ∧
    (maybeSendChase 0 baseInvoice [] none {} collabSendFail baseDB).1 ≠ Except.ok true ∧
    processInvoices 0 [] (fun _ => collabSendFail) [baseInvoice] 0 baseDB =
      processInvoices 0 [] (fun _ => collabSendFail) [] 0 baseDB := by
  have h := c4_delivery_failure_amended 0 baseInvoice [] none {} collabSendFail baseDB
    (Or.inr ⟨"smtp down", rfl⟩)
  exact ⟨h.1, h.2.1, h.2.2 [] 0⟩

/-- Counterexample to C2 as stated: the interleaving in which both
evaluations read the same snapshot before either commits (read 1, read 2,
commit 1, commit 2).  Both return `sent = true` and the log ends with two
ChaseRecords of status `sent`, even though the invoice row's
`chase_count` had already changed from the snapshot's value when the
second evaluation committed — there is no conditional write rejecting it. -/
theorem c2_concurrent_double_send_counterexample :
    (maybeSendChase 0 baseInvoice [] none {} collabOk baseDB).1 = Except.ok true ∧
    (maybeSendChase 0 baseInvoice [] none {} collabOk
        (maybeSendChase 0 baseInvoice [] none {} collabOk baseDB).2).1 = Except.ok true ∧
    chaseCounts (maybeSendChase 0 baseInvoice [] none {} collabOk baseDB).2 = [1] ∧
    baseInvoice.chase_count = some 0 ∧
    countSent (maybeSendChase 0 baseInvoice [] none {} collabOk
        (maybeSendChase 0 baseInvoice [] none {} collabOk baseDB).2).2 = 2 := by
  refine ⟨by decide, by decide, by decide, rfl, by decide⟩

/-- C2 amended: the final commit is an unconditional write keyed only on
the invoice id, so a second evaluation of the same snapshot against the
post-commit state still sends: whenever one evaluation sends, re-running
it on the resulting state sends again and appends a second `sent`
ChaseRecord. -/
theorem c2_unconditional_commit_amended (now : Int) (inv : Invoice)
    (configMap : ConfigMap) (paymentLink : Option String) (options : Options)
    (collab : Collaborators) (db : DB)
    (h : (maybeSendChase now inv configMap paymentLink options collab db).1 =
      Except.ok true) :
    (maybeSendChase now inv configMap paymentLink options collab
        ((maybeSendChase now inv configMap paymentLink options collab db).2)).1 =
      Except.ok true ∧
    countSent (maybeSendChase now inv configMap paymentLink options collab
        ((maybeSendChase now inv configMap paymentLink options collab db).2)).2 =
      countSent db + 2 := by
  rw [maybeSendChase_fst] at h
  constructor
  · rw [maybeSendChase_fst]
    exact h
  · rw [maybeSendChase_snd, if_pos h, maybeSendChase_snd, if_pos h,
      countSent_commit, countSent_commit]

/-- Witness for the amended C2: the concrete double send. -/
theorem c2_unconditional_commit_amended_witness :
    (maybeSendChase 0 baseInvoice [] none {} collabOk
        ((maybeSendChase 0 baseInvoice [] none {} collabOk baseDB).2)).1 =
      Except.ok true ∧
    countSent (maybeSendChase 0 baseInvoice [] none {} collabOk
        ((maybeSendChase 0 baseInvoice [] none {} collabOk baseDB).2)).2 =
      countSent baseDB + 2 :=
  c2_unconditional_commit_amended 0 baseInvoice [] none {} collabOk baseDB (by decide)

/-- C6: a successful evaluation sets the chased row's `chase_count` to its
current value plus one (NULL read as 0) and touches no other row's count;
an evaluation that does not send leaves the database unchanged; and across
any sequence of evaluations every row's `chase_count` is monotonically
non-decreasing. -/
theorem c6_chase_count_monotone :
    (∀ (s : EvalInput) (db : DB), (evalStep s db).1 = Except.ok true →
      chaseCounts (evalStep s db).2 =
        db.invoices.map (fun r =>
          if r.id = s.inv.id then r.chase_count.getD 0 + 1 else r.chase_count.getD 0)) ∧
    (∀ (s : EvalInput) (db : DB), (evalStep s db).1 ≠ Except.ok true →
      (evalStep s db).2 = db) ∧
    (∀ (steps : List EvalInput) (db : DB),
      List.Forall₂ (· ≤ ·) (chaseCounts db) (chaseCounts (runEvaluations steps db))) := by
  refine ⟨?_, ?_, chaseCounts_run_le⟩
  · intro s db h
    unfold evalStep at h ⊢
    rw [maybeSendChase_fst] at h
    rw [maybeSendChase_snd, if_pos h, chaseCounts_commit]
  · intro s db h
    unfold evalStep at h ⊢
    rw [maybeSendChase_fst] at h
    rw [maybeSendChase_snd, if_neg h]

/-- The successful evaluation input used by the C6 witness. -/
def stepOk : EvalInput :=
  { now := 0, inv := baseInvoice, configMap := [], paymentLink := none,
    options := {}, collab := collabOk }

/-- Witness for C6: the concrete send increments the single row's count
from 0 to 1. -/
theorem c6_chase_count_monotone_witness :
    chaseCounts (evalStep stepOk baseDB).2 =
      baseDB.invoices.map (fun r =>
        if r.id = stepOk.inv.id then r.chase_count.getD 0 + 1 else r.chase_count.getD 0) :=
  c6_chase_count_monotone.1 stepOk baseDB (by decide)

/-- C8: the batch run reports as `totalCandidates` the length of the full
candidate selection, and an invoice whose evaluation throws is skipped by
the loop's catch — the remaining invoices are processed exactly as if the
throwing one were absent, from the same state and accumulator. -/
theorem c8_batch_isolation :
    (∀ (now today : Int) (configMap : ConfigMap)
      (collabOf : Invoice → Collaborators) (db : DB),
      (processOverdueChasing now today configMap collabOf db).1.2 =
        (selectCandidateInvoices today db).length) ∧
    (∀ (now : Int) (configMap : ConfigMap) (collabOf : Invoice → Collaborators)
      (bad : Invoice) (rest : List Invoice) (acc : Nat) (db : DB) (e : String),
      chaseOutcome now bad configMap {} (collabOf bad) = Except.error e →
      processInvoices now configMap collabOf (bad :: rest) acc db =
        processInvoices now configMap collabOf rest acc db) := by
  exact ⟨fun now today configMap collabOf db => rfl, processInvoices_error_skip⟩

/-- Witness for C8: a throwing first invoice does not stop the batch from
evaluating (and here sending for) the remaining invoice. -/
theorem c8_batch_isolation_witness :
    processInvoices 0 [] (fun _ => collabGenFail) [baseInvoice, invFiftyHours] 0 baseDB =
      processInvoices 0 [] (fun _ => collabGenFail) [invFiftyHours] 0 baseDB :=
  c8_batch_isolation.2 0 [] (fun _ => collabGenFail) baseInvoice [invFiftyHours] 0 baseDB
    "model unavailable" (by decide)

/-- An invoice whose `overdue_days` column is NULL while its due date is
10 days in the past: the Decision Engine derives `daysOverdue = 10`, the
dashboard accessor reads 0. -/
def invStaleDays : Invoice :=
  { baseInvoice with
    overdue_days := none
    due_date := some (-(10 * (24 * 60 * 60 * 1000)))
    last_chase_date := some (some 0) }

/-- Counterexample to C9 as stated: on `invStaleDays` the engine's
`daysOverdue` is 10 (tier interval 24h, so the spec projection says the
next chase is `last_chase_at + 24h`), but `computeNextChaseInfo` treats
the NULL `overdue_days` as 0 and returns a null `next_chase_date`. -/
theorem c9_next_chase_counterexample :
    computeNextChaseInfo 0 invStaleDays = Except.ok (none, none) ∧
    getIntervalHoursForOverdueDays (computeDaysOverdue 0 invStaleDays) = some 24 ∧
    specNextChaseDate 0 invStaleDays = some 86400000 := by
  refine ⟨by decide, by decide, by decide⟩

/-- C9 amended: the accessor agrees with the §4.1 projection of the
engine's `daysOverdue` exactly when `overdue_days` is a non-negative
number (then both use that value) and `last_chase_at` is absent or a
valid date: then `next_chase_date` is `last_chase_at` plus the tier
interval, or now when never chased, or null below threshold.  With
`overdue_days` NULL, NaN or negative the two can diverge (see the
counterexample). -/
theorem c9_next_chase_amended (now : Int) (inv : Invoice) (d : Int)
    (hd : inv.overdue_days = some d) (hnn : 0 ≤ d)
    (hvalid : inv.last_chase_date ≠ some none) :
    ∃ du, computeNextChaseInfo now inv = Except.ok (specNextChaseDate now inv, du) := by
  have hdo : computeDaysOverdue now inv = d := by
    unfold computeDaysOverdue
    simp only [hd]
    exact if_pos hnn
  simp only [computeNextChaseInfo, specNextChaseDate, getIntervalHoursForOverdueDays, hdo, hd]
  cases hl : inv.last_chase_date with
  | none =>
      by_cases h10 : d ≥ 10
      · simp only [if_pos h10]
        exact ⟨_, rfl⟩
      · by_cases h7 : d ≥ 7
        · simp only [if_neg h10, if_pos h7]
          exact ⟨_, rfl⟩
        · by_cases h5 : d ≥ 5
          · simp only [if_neg h10, if_neg h7, if_pos h5]
            exact ⟨_, rfl⟩
          · simp only [if_neg h10, if_neg h7, if_neg h5]
            exact ⟨none, rfl⟩
  | some jd =>
      cases jd with
      | none => exact absurd hl hvalid
      | some t =>
          by_cases h10 : d ≥ 10
          · simp only [if_pos h10]
            exact ⟨_, rfl⟩
          · by_cases h7 : d ≥ 7
            · simp only [if_neg h10, if_pos h7]
              exact ⟨_, rfl⟩
            · by_cases h5 : d ≥ 5
              · simp only [if_neg h10, if_neg h7, if_pos h5]
                exact ⟨_, rfl⟩
              · simp only [if_neg h10, if_neg h7, if_neg h5]
                exact ⟨none, rfl⟩

/-- Witness for the amended C9: the 8-days-overdue invoice's accessor
output equals the spec projection. -/
theorem c9_next_chase_amended_witness :
    ∃ du, computeNextChaseInfo 100 invFiftyHours =
      Except.ok (specNextChaseDate 100 invFiftyHours, du) :=
  c9_next_chase_amended 100 invFiftyHours 8 rfl (by decide) (by decide)
